import Mathlib

/-!
Shallow embedding of the GPIO pin lifecycle manager of the chip-ioboard
repository: class Gpio in src/sysfs/__init__.py and class Pin in
src/sysfs/pin.py.  Side effects on the sysfs pseudo-filesystem and on the
tornado event loop are made explicit: every operation returns a result, the
updated state, and a trace of the external writes and event-loop calls it
performed, in source order.
-/

namespace ChipIoboard

/-- Direction constant INPUT, the string written to the direction file
(src/sysfs/__init__.py, line 53). -/
def INPUT : String := "in"

/-- Direction constant OUTPUT (src/sysfs/__init__.py, line 54). -/
def OUTPUT : String := "out"

/-- Edge constant RISING (src/sysfs/__init__.py, line 56). -/
def RISING : String := "rising"

/-- Edge constant FALLING (src/sysfs/__init__.py, line 57). -/
def FALLING : String := "falling"

/-- Edge constant BOTH (src/sysfs/__init__.py, line 58). -/
def BOTH : String := "both"

/-- Tuple DIRECTIONS = (INPUT, OUTPUT) (src/sysfs/__init__.py, line 60). -/
def DIRECTIONS : List String := [INPUT, OUTPUT]

/-- Tuple EDGES = (RISING, FALLING, BOTH) (src/sysfs/__init__.py, line 61). -/
def EDGES : List String := [RISING, FALLING, BOTH]

/-- String written for logic LOW (src/sysfs/pin.py, line 39). -/
def SYSFS_GPIO_VALUE_LOW : String := "0"

/-- String written for logic HIGH (src/sysfs/pin.py, line 40). -/
def SYSFS_GPIO_VALUE_HIGH : String := "1"

/-- Tuple ACTIVE_LOW_MODES = (ACTIVE_LOW_ON, ACTIVE_LOW_OFF) = (1, 0)
(src/sysfs/pin.py, lines 45 to 48). -/
def ACTIVE_LOW_MODES : List Int := [1, 0]

/-- Failure outcomes.  The Python code raises bare Exception objects; the
names used by the specification are adopted for the validation failures.
keyError models a raw dictionary lookup failure (Python KeyError), nameError
models evaluation of an unbound identifier (Python NameError), ioError models
an OS-level open or write failure, and valueError models an int() parse
failure. -/
inductive Err where
  | invalidPin
  | pinAlreadyAllocated
  | pinNotAllocated
  | invalidDirection
  | invalidEdge
  | invalidActiveLow
  | keyError
  | nameError
  | ioError
  | valueError
  deriving DecidableEq, Repr

/-- Observable side effects, recorded in program order: writes to the sysfs
control surface, opening or closing a value handle, a value-file read through
a pin handle, and event-loop handler registration or removal. -/
inductive Event where
  | exportWrite (n : Nat)
  | unexportWrite (n : Nat)
  | openValue (n : Nat)
  | directionWrite (n : Nat) (s : String)
  | edgeWrite (n : Nat) (s : String)
  | activeLowWrite (n : Nat) (s : String)
  | valueWrite (n : Nat) (s : String)
  | valueRead (n : Nat)
  | closeHandle (n : Nat)
  | pollRegister (n : Nat)
  | pollUnregister (n : Nat)
  deriving DecidableEq, Repr

/-- A persistent open handle on a value file: the simulated file content and
the current position, as used by the r+ handle opened in Pin.__init__
(src/sysfs/pin.py, line 76). -/
structure Handle where
  content : String
  pos : Nat
  deriving DecidableEq, Repr

/-- Overwrite at the current position, as fd.write does on an r+ handle;
the position advances past the written text. -/
def Handle.write (h : Handle) (s : String) : Handle :=
  ⟨h.content.take h.pos ++ s ++ h.content.drop (h.pos + s.length),
   h.pos + s.length⟩

/-- fd.seek(0): reposition the handle at the start of the file. -/
def Handle.seek0 (h : Handle) : Handle := ⟨h.content, 0⟩

/-- fd.read(): read from the current position to the end of the file,
leaving the position at the end. -/
def Handle.readAll (h : Handle) : String × Handle :=
  (h.content.drop h.pos, ⟨h.content, h.content.length⟩)

/-- A Pin value (src/sysfs/pin.py, class Pin): the attributes assigned by
Pin.__init__ together with the persistent value handle.  The callback is an
opaque identifier; only its presence matters to the core. -/
structure Pin where
  number : Nat
  direction : String
  callback : Option Nat
  edge : Option String
  active_low : Int
  fd : Handle
  deriving DecidableEq, Repr

/-- The sysfs control surface seen by the program: the lines the kernel
accepts on an export write, the per-pin control directories currently
present, and the current content of each value file. -/
structure Sysfs where
  validGpios : List Nat
  gpioDirs : List Nat
  values : Nat → String

/-- Helper for the edge write of Pin.__init__ (src/sysfs/pin.py, lines 84 to
86): one edgeWrite event when an edge was supplied, none otherwise. -/
def edgeEvents (number : Nat) (edge : Option String) : List Event :=
  match edge with
  | some e => [Event.edgeWrite number e]
  | none => []

/-- Pin.__init__ (src/sysfs/pin.py, lines 56 to 92).  In source order: open
the persistent value handle (fails when the control directory is absent);
raise when a callback is supplied without an edge; write the direction
string; write the edge string when an edge was supplied; when active_low is
nonzero, raise unless it is 0 or 1, else write str(active_low).  The trace
lists the writes that happened before any failure. -/
def Pin.init (fs : Sysfs) (number : Nat) (direction : String)
    (callback : Option Nat) (edge : Option String) (active_low : Int) :
    Except Err Pin × List Event :=
  if number ∉ fs.gpioDirs then
    (.error .ioError, [])
  else if callback.isSome && edge.isNone then
    (.error .invalidEdge, [Event.openValue number])
  else if active_low ≠ 0 ∧ active_low ∉ ACTIVE_LOW_MODES then
    (.error .invalidActiveLow,
      [Event.openValue number, Event.directionWrite number direction]
        ++ edgeEvents number edge)
  else if active_low ≠ 0 then
    (.ok ⟨number, direction, callback, edge, active_low, ⟨fs.values number, 0⟩⟩,
      [Event.openValue number, Event.directionWrite number direction]
        ++ edgeEvents number edge
        ++ [Event.activeLowWrite number (toString active_low)])
  else
    (.ok ⟨number, direction, callback, edge, active_low, ⟨fs.values number, 0⟩⟩,
      [Event.openValue number, Event.directionWrite number direction]
        ++ edgeEvents number edge)

/-- Pin.set (src/sysfs/pin.py, lines 129 to 134): write the HIGH string
through the persistent handle, then seek(0). -/
def Pin.set (p : Pin) : Pin :=
  {p with fd := (p.fd.write SYSFS_GPIO_VALUE_HIGH).seek0}

/-- Pin.reset (src/sysfs/pin.py, lines 136 to 141): write the LOW string
through the persistent handle, then seek(0). -/
def Pin.reset (p : Pin) : Pin :=
  {p with fd := (p.fd.write SYSFS_GPIO_VALUE_LOW).seek0}

/-- Whitespace as stripped by the Python int() conversion. -/
def isPySpace (c : Char) : Bool :=
  c == ' ' || c == '\t' || c == '\n' || c == '\r'

/-- Value of a decimal digit character, none for any other character. -/
def digitVal (c : Char) : Option Nat :=
  if 48 ≤ c.toNat ∧ c.toNat ≤ 57 then some (c.toNat - 48) else none

/-- Accumulate a decimal number over a digit list; none on a non-digit. -/
def digitsAux (acc : Nat) : List Char → Option Nat
  | [] => some acc
  | c :: cs =>
    match digitVal c with
    | none => none
    | some d => digitsAux (10 * acc + d) cs

/-- A nonempty all-digit character list as a number, none otherwise. -/
def digitsToNat : List Char → Option Nat
  | [] => none
  | cs => digitsAux 0 cs

/-- The Python int() conversion on a string: strip whitespace, optional
sign, then a nonempty run of decimal digits; none models the ValueError
raised on anything else. -/
def pyInt (s : String) : Option Int :=
  match ((s.data.dropWhile isPySpace).reverse.dropWhile isPySpace).reverse with
  | [] => none
  | c :: rest =>
    if c = '-' then (digitsToNat rest).map (fun n => -(n : Int))
    else if c = '+' then (digitsToNat rest).map (fun n => (n : Int))
    else (digitsToNat (c :: rest)).map (fun n => (n : Int))

/-- Pin.read (src/sysfs/pin.py, lines 143 to 152): read through the handle,
seek(0), then parse with int(); the parse failure (Python ValueError) comes
after the seek. -/
def Pin.read (p : Pin) : Except Err Int × Pin :=
  match p.fd.readAll with
  | (val, fd1) =>
    match pyInt val with
    | none => (.error .valueError, {p with fd := fd1.seek0})
    | some v => (.ok v, {p with fd := fd1.seek0})

/-- The callback property setter (src/sysfs/pin.py, lines 101 to 106): it
assigns the new callback with no validation of the edge. -/
def Pin.set_callback (p : Pin) (value : Option Nat) : Pin :=
  {p with callback := value}

/-- Boolean form of the specification invariant: a pin with direction INPUT
and a callback present must have an edge. -/
def pinInvariantB (p : Pin) : Bool :=
  !(p.direction == INPUT && p.callback.isSome && p.edge.isNone)

/-- The specification invariant on a Pin, as a proposition. -/
def pinInvariant (p : Pin) : Prop := pinInvariantB p = true

/-- Python dictionary lookup on the allocated-pins mapping. -/
def dictGet (d : List (Nat × Pin)) (k : Nat) : Option Pin :=
  match d with
  | [] => none
  | (k1, v) :: rest => if k1 = k then some v else dictGet rest k

/-- Python dictionary assignment: replace the binding when present, append
it otherwise. -/
def dictInsert (d : List (Nat × Pin)) (k : Nat) (v : Pin) : List (Nat × Pin) :=
  match d with
  | [] => [(k, v)]
  | (k1, v1) :: rest =>
    if k1 = k then (k, v) :: rest else (k1, v1) :: dictInsert rest k v

/-- Python del on a dictionary entry. -/
def dictErase (d : List (Nat × Pin)) (k : Nat) : List (Nat × Pin) :=
  match d with
  | [] => []
  | (k1, v1) :: rest => if k1 = k then rest else (k1, v1) :: dictErase rest k

/-- The Gpio registry (src/sysfs/__init__.py, class Gpio): the sysfs state it
operates on, the available-pins configuration, the allocated-pins mapping,
and the handler table of the poll queue (the pin numbers currently
registered with the event loop). -/
structure Gpio where
  fs : Sysfs
  available_pins : List Nat
  allocated_pins : List (Nat × Pin)
  registered : List Nat

/-- Result of one registry operation: the returned value or the raised
failure, the updated registry state, and the trace of side effects in the
order they were performed. -/
structure Outcome (α : Type) where
  result : Except Err α
  gpio : Gpio
  trace : List Event

/-- Gpio._check_pin_validity (src/sysfs/__init__.py, lines 205 to 219):
raise when the number is not in the available set, then raise when it is
already a key of the allocated-pins mapping. -/
def Gpio.check_pin_validity (g : Gpio) (number : Nat) : Except Err Unit :=
  if number ∉ g.available_pins then .error .invalidPin
  else if (dictGet g.allocated_pins number).isSome then .error .pinAlreadyAllocated
  else .ok ()

/-- Gpio._check_pin_already_exported (src/sysfs/__init__.py, lines 192 to
202): os.path.isdir on the per-pin control directory. -/
def Gpio.check_pin_already_exported (g : Gpio) (number : Nat) : Bool :=
  decide (number ∈ g.fs.gpioDirs)

/-- Writing the pin number to the export control file: the kernel creates
the control directory for a line it knows, and fails the write otherwise. -/
def Sysfs.exportWrite (fs : Sysfs) (number : Nat) : Except Err Sysfs :=
  if number ∈ fs.validGpios then .ok {fs with gpioDirs := fs.gpioDirs ++ [number]}
  else .error .ioError

/-- Writing the pin number to the unexport control file removes the control
directory. -/
def Sysfs.unexportWrite (fs : Sysfs) (number : Nat) : Sysfs :=
  {fs with gpioDirs := fs.gpioDirs.erase number}

/-- Gpio._poll_queue_register_pin (src/sysfs/__init__.py, lines 174 to 177).
The body evaluates io_loop.READ|io_loop._EPOLLET for the handler mask, but
the module binds only IOLoop (imported on line 34) and never io_loop, so
evaluating the mask raises NameError before add_handler is called: no
handler is ever added. -/
def Gpio.poll_queue_register_pin (_registered : List Nat) (_pin : Pin) :
    Except Err (List Nat) :=
  Except.error Err.nameError

/-- Gpio._poll_queue_unregister_pin (src/sysfs/__init__.py, lines 180 to
181): remove_handler on the pin; the tornado handler table drops the entry
for the pin when present and is unchanged otherwise. -/
def Gpio.poll_queue_unregister_pin (registered : List Nat) (pin : Pin) :
    List Nat :=
  registered.erase pin.number

/-- Continuation of Gpio.alloc_pin after the export step
(src/sysfs/__init__.py, lines 103 to 109): construct the Pin, and when
direction is INPUT register it with the poll queue, then insert it into the
allocated-pins mapping and return it.  fs1 is the sysfs state after the
export step and ev1 the events of that step. -/
def Gpio.alloc_pin_cont (g : Gpio) (number : Nat) (direction : String)
    (callback : Option Nat) (edge : Option String) (active_low : Int)
    (fs1 : Sysfs) (ev1 : List Event) : Outcome Pin :=
  match Pin.init fs1 number direction callback edge active_low with
  | (.error e, ev2) => ⟨.error e, {g with fs := fs1}, ev1 ++ ev2⟩
  | (.ok pin, ev2) =>
    if direction = INPUT then
      match Gpio.poll_queue_register_pin g.registered pin with
      | .error e => ⟨.error e, {g with fs := fs1}, ev1 ++ ev2⟩
      | .ok reg1 =>
        ⟨.ok pin,
         {g with fs := fs1, registered := reg1,
                 allocated_pins := dictInsert g.allocated_pins number pin},
         ev1 ++ ev2 ++ [Event.pollRegister number]⟩
    else
      ⟨.ok pin,
       {g with fs := fs1,
               allocated_pins := dictInsert g.allocated_pins number pin},
       ev1 ++ ev2⟩

/-- Membership of an optional edge in EDGES, as tested by the expression
edge not in EDGES on line 94 of src/sysfs/__init__.py: None is never a
member. -/
def edgeInEdges (edge : Option String) : Bool :=
  match edge with
  | some e => decide (e ∈ EDGES)
  | none => false

/-- Gpio.alloc_pin (src/sysfs/__init__.py, lines 83 to 109), in source
order: validity check, direction check, callback-edge check, idempotent
export (skipped with a log line when the control directory already exists),
then construction, registration and insertion via alloc_pin_cont. -/
def Gpio.alloc_pin (g : Gpio) (number : Nat) (direction : String)
    (callback : Option Nat) (edge : Option String) (active_low : Int) :
    Outcome Pin :=
  match g.check_pin_validity number with
  | .error e => ⟨.error e, g, []⟩
  | .ok _ =>
    if direction ∉ DIRECTIONS then ⟨.error .invalidDirection, g, []⟩
    else if callback.isSome && !(edgeInEdges edge) then ⟨.error .invalidEdge, g, []⟩
    else if g.check_pin_already_exported number then
      g.alloc_pin_cont number direction callback edge active_low g.fs []
    else
      match g.fs.exportWrite number with
      | .error e => ⟨.error e, g, [Event.exportWrite number]⟩
      | .ok fs1 =>
        g.alloc_pin_cont number direction callback edge active_low fs1
          [Event.exportWrite number]

/-- Gpio.dealloc_pin (src/sysfs/__init__.py, lines 112 to 126): raise when
the number is not allocated; otherwise write the unexport file, then when
the pin is an input remove its handler from the poll queue, then delete the
mapping entry.  No close of the value handle appears in the body; the handle
is released only when the last reference to the Pin object is dropped. -/
def Gpio.dealloc_pin (g : Gpio) (number : Nat) : Outcome Unit :=
  match dictGet g.allocated_pins number with
  | none => ⟨.error .pinNotAllocated, g, []⟩
  | some pin =>
    if pin.direction = INPUT then
      ⟨.ok (),
       {g with fs := g.fs.unexportWrite number,
               registered := Gpio.poll_queue_unregister_pin g.registered pin,
               allocated_pins := dictErase g.allocated_pins number},
       [Event.unexportWrite number, Event.pollUnregister pin.number]⟩
    else
      ⟨.ok (),
       {g with fs := g.fs.unexportWrite number,
               allocated_pins := dictErase g.allocated_pins number},
       [Event.unexportWrite number]⟩

/-- Gpio.get_pin (src/sysfs/__init__.py, lines 129 to 132): a bare
dictionary lookup with no allocation check; a missing key raises KeyError,
not the explicit not-allocated exception. -/
def Gpio.get_pin (g : Gpio) (number : Nat) : Outcome Pin :=
  match dictGet g.allocated_pins number with
  | none => ⟨.error .keyError, g, []⟩
  | some pin => ⟨.ok pin, g, []⟩

/-- Gpio.set_pin (src/sysfs/__init__.py, lines 135 to 141): raise when not
allocated, else delegate to the set method of the allocated pin. -/
def Gpio.set_pin (g : Gpio) (number : Nat) : Outcome Unit :=
  match dictGet g.allocated_pins number with
  | none => ⟨.error .pinNotAllocated, g, []⟩
  | some pin =>
    ⟨.ok (),
     {g with allocated_pins := dictInsert g.allocated_pins number pin.set},
     [Event.valueWrite number SYSFS_GPIO_VALUE_HIGH]⟩

/-- Gpio.reset_pin (src/sysfs/__init__.py, lines 144 to 150): raise when not
allocated, else delegate to the reset method of the allocated pin. -/
def Gpio.reset_pin (g : Gpio) (number : Nat) : Outcome Unit :=
  match dictGet g.allocated_pins number with
  | none => ⟨.error .pinNotAllocated, g, []⟩
  | some pin =>
    ⟨.ok (),
     {g with allocated_pins := dictInsert g.allocated_pins number pin.reset},
     [Event.valueWrite number SYSFS_GPIO_VALUE_LOW]⟩

/-- Read phase of Gpio.get_pin_state (src/sysfs/__init__.py, lines 164 to
169): pin.read() through the handle, then the return value is False when the
read value is at most 0 and True otherwise. -/
def Gpio.get_pin_state_read (g : Gpio) (number : Nat) (pin : Pin)
    (ev1 : List Event) : Outcome Bool :=
  match pin.read with
  | (.error e, pin1) =>
    ⟨.error e,
     {g with allocated_pins := dictInsert g.allocated_pins number pin1},
     ev1 ++ [Event.valueRead number]⟩
  | (.ok v, pin1) =>
    ⟨.ok (if v ≤ 0 then false else true),
     {g with allocated_pins := dictInsert g.allocated_pins number pin1},
     ev1 ++ [Event.valueRead number]⟩

/-- Gpio.get_pin_state (src/sysfs/__init__.py, lines 153 to 169): raise when
the number is not allocated; when the direction of the pin is INPUT, remove
its handler from the poll queue first; then read and derive the boolean.  No
re-registration follows the read. -/
def Gpio.get_pin_state (g : Gpio) (number : Nat) : Outcome Bool :=
  match dictGet g.allocated_pins number with
  | none => ⟨.error .pinNotAllocated, g, []⟩
  | some pin =>
    if pin.direction = INPUT then
      Gpio.get_pin_state_read
        {g with registered := Gpio.poll_queue_unregister_pin g.registered pin}
        number pin [Event.pollUnregister pin.number]
    else
      Gpio.get_pin_state_read g number pin []

/-! Helper lemmas about the embedding, shared by the claim theorems. -/

/-- Looking up a key right after inserting it yields the inserted pin. -/
theorem dictGet_insert_self (d : List (Nat × Pin)) (k : Nat) (v : Pin) :
    dictGet (dictInsert d k v) k = some v := by
  induction d with
  | nil => simp [dictInsert, dictGet]
  | cons hd tl ih =>
    obtain ⟨k1, v1⟩ := hd
    by_cases h : k1 = k
    · simp [dictInsert, dictGet, h]
    · simp [dictInsert, dictGet, h, ih]

/-- alloc_pin never changes the available-pins configuration. -/
theorem alloc_pin_available_eq (g : Gpio) (number : Nat) (direction : String)
    (callback : Option Nat) (edge : Option String) (active_low : Int) :
    (g.alloc_pin number direction callback edge active_low).gpio.available_pins
      = g.available_pins := by
  unfold Gpio.alloc_pin Gpio.alloc_pin_cont
  repeat' split
  all_goals rfl

/-- Either alloc_pin succeeds and the only change to the allocated-pins
mapping is the insertion of the returned pin, or it fails and the mapping is
exactly as before. -/
theorem alloc_pin_shape (g : Gpio) (number : Nat) (direction : String)
    (callback : Option Nat) (edge : Option String) (active_low : Int) :
    (∃ p, (g.alloc_pin number direction callback edge active_low).result = .ok p ∧
      (g.alloc_pin number direction callback edge active_low).gpio.allocated_pins
        = dictInsert g.allocated_pins number p) ∨
    ((∃ e, (g.alloc_pin number direction callback edge active_low).result = .error e) ∧
      (g.alloc_pin number direction callback edge active_low).gpio.allocated_pins
        = g.allocated_pins) := by
  unfold Gpio.alloc_pin Gpio.alloc_pin_cont
  repeat' split
  all_goals first
    | (left; exact ⟨_, rfl, rfl⟩)
    | (right; exact ⟨⟨_, rfl⟩, rfl⟩)

/-- Any failing alloc_pin call leaves the allocated-pins mapping unchanged. -/
theorem alloc_pin_error_unchanged (g : Gpio) (number : Nat) (direction : String)
    (callback : Option Nat) (edge : Option String) (active_low : Int) (err : Err)
    (h : (g.alloc_pin number direction callback edge active_low).result = .error err) :
    (g.alloc_pin number direction callback edge active_low).gpio.allocated_pins
      = g.allocated_pins := by
  rcases alloc_pin_shape g number direction callback edge active_low with
    ⟨p, hp, -⟩ | ⟨-, heq⟩
  · rw [hp] at h; exact Except.noConfusion h
  · exact heq

/-- Case analysis on Pin.init: open failure on an absent control directory,
the missing-edge failure, the active-low failure, or success. -/
theorem pin_init_pair_shape (fs : Sysfs) (number : Nat) (direction : String)
    (callback : Option Nat) (edge : Option String) (active_low : Int) :
    ((∃ tr, Pin.init fs number direction callback edge active_low = (.error .ioError, tr)) ∧
      number ∉ fs.gpioDirs) ∨
    ((∃ tr, Pin.init fs number direction callback edge active_low = (.error .invalidEdge, tr)) ∧
      callback.isSome = true ∧ edge = none) ∨
    (∃ tr, Pin.init fs number direction callback edge active_low = (.error .invalidActiveLow, tr)) ∨
    (∃ p tr, Pin.init fs number direction callback edge active_low = (.ok p, tr)) := by
  unfold Pin.init
  repeat' split
  all_goals simp_all [Option.isNone_iff_eq_none]

/-- Every pin that Pin.init constructs satisfies the edge invariant. -/
theorem pin_init_ok_invariant (fs : Sysfs) (number : Nat) (direction : String)
    (callback : Option Nat) (edge : Option String) (active_low : Int) (p : Pin)
    (ev : List Event)
    (h : Pin.init fs number direction callback edge active_low = (.ok p, ev)) :
    pinInvariant p := by
  unfold Pin.init at h
  repeat' split at h
  all_goals injection h with h1 h2
  all_goals first
    | exact Except.noConfusion h1
    | (injection h1 with h1
       rw [← h1]
       simp_all [pinInvariant, pinInvariantB, Option.isSome_iff_ne_none]
       tauto)

/-- Pin.init succeeds whenever the control directory exists, no callback is
supplied without an edge, and active_low is 0 or 1. -/
theorem pin_init_ok_exists (fs : Sysfs) (number : Nat) (direction : String)
    (callback : Option Nat) (edge : Option String) (active_low : Int)
    (h1 : number ∈ fs.gpioDirs)
    (h2 : callback.isSome = true → edge ≠ none)
    (h3 : active_low = 0 ∨ active_low ∈ ACTIVE_LOW_MODES) :
    ∃ p tr, Pin.init fs number direction callback edge active_low = (.ok p, tr) := by
  unfold Pin.init
  repeat' split
  all_goals simp_all [Option.isNone_iff_eq_none]

/-- The trace of Pin.init contains no export write. -/
theorem pin_init_no_export (fs : Sysfs) (number : Nat) (direction : String)
    (callback : Option Nat) (edge : Option String) (active_low : Int) (m : Nat) :
    Event.exportWrite m ∉ (Pin.init fs number direction callback edge active_low).2 := by
  unfold Pin.init
  repeat' split
  all_goals rcases edge with _ | e
  all_goals simp [edgeEvents]

/-- An export write fails only with ioError. -/
theorem exportWrite_error (fs : Sysfs) (number : Nat) (e : Err)
    (h : fs.exportWrite number = .error e) : e = .ioError := by
  unfold Sysfs.exportWrite at h
  split at h <;> simp_all


theorem alloc_pin_cont_error_kinds (g : Gpio) (number : Nat) (direction : String)
    (callback : Option Nat) (edge : Option String) (active_low : Int)
    (fs1 : Sysfs) (ev1 : List Event)
    (hedge : callback.isSome = true → edgeInEdges edge = true) :
    ∀ err, (g.alloc_pin_cont number direction callback edge active_low fs1 ev1).result
        = .error err →
      err = .ioError ∨ err = .invalidActiveLow ∨ err = .nameError := by
  intro err h
  rcases pin_init_pair_shape fs1 number direction callback edge active_low with
    ⟨⟨tr, heq⟩, -⟩ | ⟨⟨tr, heq⟩, hcb, hnone⟩ | ⟨tr, heq⟩ | ⟨p, tr, heq⟩
  · unfold Gpio.alloc_pin_cont at h
    rw [heq] at h
    simp_all
  · have := hedge hcb
    rw [hnone] at this
    simp [edgeInEdges] at this
  · unfold Gpio.alloc_pin_cont at h
    rw [heq] at h
    simp_all
  · unfold Gpio.alloc_pin_cont at h
    rw [heq] at h
    by_cases hd : direction = INPUT
    · simp [hd, Gpio.poll_queue_register_pin] at h
      simp [h]
    · simp [hd] at h

theorem alloc_pin_cont_input_name_error (g : Gpio) (number : Nat)
    (callback : Option Nat) (edge : Option String) (active_low : Int)
    (fs1 : Sysfs) (ev1 : List Event)
    (h1 : number ∈ fs1.gpioDirs)
    (h2 : callback.isSome = true → edge ≠ none)
    (h3 : active_low = 0 ∨ active_low ∈ ACTIVE_LOW_MODES) :
    (g.alloc_pin_cont number INPUT callback edge active_low fs1 ev1).result
        = .error .nameError ∧
    (g.alloc_pin_cont number INPUT callback edge active_low fs1 ev1).gpio.allocated_pins
        = g.allocated_pins := by
  obtain ⟨p, tr, heq⟩ := pin_init_ok_exists fs1 number INPUT callback edge active_low h1 h2 h3
  unfold Gpio.alloc_pin_cont
  rw [heq]
  simp [Gpio.poll_queue_register_pin]

theorem alloc_pin_cont_trace_append (g : Gpio) (number : Nat) (direction : String)
    (callback : Option Nat) (edge : Option String) (active_low : Int)
    (fs1 : Sysfs) (ev1 : List Event) :
    ∃ tr2, (g.alloc_pin_cont number direction callback edge active_low fs1 ev1).trace
        = ev1 ++ tr2 := by
  unfold Gpio.alloc_pin_cont
  repeat' split
  all_goals first
    | exact ⟨_, rfl⟩
    | exact ⟨_, List.append_assoc _ _ _⟩

theorem alloc_pin_cont_no_export (g : Gpio) (number : Nat) (direction : String)
    (callback : Option Nat) (edge : Option String) (active_low : Int)
    (fs1 : Sysfs) (ev1 : List Event) (m : Nat)
    (hev : Event.exportWrite m ∉ ev1) :
    Event.exportWrite m ∉
      (g.alloc_pin_cont number direction callback edge active_low fs1 ev1).trace := by
  have hpi := pin_init_no_export fs1 number direction callback edge active_low m
  unfold Gpio.alloc_pin_cont
  rcases hr : Pin.init fs1 number direction callback edge active_low with ⟨res, tr⟩
  rw [hr] at hpi
  simp only at hpi
  rcases res with e | p
  · simp [hev, hpi]
  · by_cases hd : direction = INPUT
    · simp [hd, Gpio.poll_queue_register_pin, hev, hpi]
    · simp [hd, hev, hpi]

theorem alloc_pin_cont_not_ioError (g : Gpio) (number : Nat) (direction : String)
    (callback : Option Nat) (edge : Option String) (active_low : Int)
    (fs1 : Sysfs) (ev1 : List Event)
    (h1 : number ∈ fs1.gpioDirs) :
    (g.alloc_pin_cont number direction callback edge active_low fs1 ev1).result
      ≠ .error .ioError := by
  rcases pin_init_pair_shape fs1 number direction callback edge active_low with
    ⟨-, habs⟩ | ⟨⟨tr, heq⟩, -, -⟩ | ⟨tr, heq⟩ | ⟨p, tr, heq⟩
  · exact absurd h1 habs
  · unfold Gpio.alloc_pin_cont
    rw [heq]
    simp
  · unfold Gpio.alloc_pin_cont
    rw [heq]
    simp
  · unfold Gpio.alloc_pin_cont
    rw [heq]
    by_cases hd : direction = INPUT
    · simp [hd, Gpio.poll_queue_register_pin]
    · simp [hd]


theorem alloc_pin_early_shape (g : Gpio) (number : Nat) (direction : String)
    (callback : Option Nat) (edge : Option String) (active_low : Int) :
    ((g.alloc_pin number direction callback edge active_low).trace = [] ∧
      (g.alloc_pin number direction callback edge active_low).gpio = g) ∨
    (∀ err, (g.alloc_pin number direction callback edge active_low).result = .error err →
      err = .ioError ∨ err = .invalidActiveLow ∨ err = .nameError) := by
  unfold Gpio.alloc_pin
  rcases hv : g.check_pin_validity number with e | u
  · left; exact ⟨rfl, rfl⟩
  · by_cases hd : direction ∉ DIRECTIONS
    · rw [if_pos hd]; left; exact ⟨rfl, rfl⟩
    · rw [if_neg hd]
      by_cases hce : (callback.isSome && !edgeInEdges edge) = true
      · rw [if_pos hce]; left; exact ⟨rfl, rfl⟩
      · rw [if_neg hce]
        have hedge : callback.isSome = true → edgeInEdges edge = true := by
          intro hc
          cases hE : edgeInEdges edge
          · exact absurd (by simp [hc, hE]) hce
          · rfl
        by_cases hexp : g.check_pin_already_exported number = true
        · rw [if_pos hexp]
          right
          exact alloc_pin_cont_error_kinds g number direction callback edge active_low
            g.fs [] hedge
        · rw [if_neg hexp]
          rcases hew : g.fs.exportWrite number with e1 | fs1
          · right
            intro err h
            have he : e1 = err := by simpa using h
            subst he
            exact Or.inl (exportWrite_error g.fs number e1 hew)
          · right
            exact alloc_pin_cont_error_kinds g number direction callback edge active_low
              fs1 _ hedge

/-- Claim C1 (code bug): for every valid allocation request with direction
INPUT, alloc_pin reaches _poll_queue_register_pin, whose handler mask
io_loop.READ|io_loop._EPOLLET evaluates an unbound name (the module imports
IOLoop, never io_loop), so the call raises NameError: the pin is neither
registered with the event loop nor inserted into the allocated-pins
mapping, and no Pin is returned. -/
theorem alloc_pin_input_nameError (g : Gpio) (number : Nat)
    (callback : Option Nat) (edge : Option String) (active_low : Int)
    (h1 : number ∈ g.available_pins)
    (h2 : dictGet g.allocated_pins number = none)
    (h3 : callback.isSome = true → edgeInEdges edge = true)
    (h4 : active_low = 0 ∨ active_low ∈ ACTIVE_LOW_MODES)
    (h5 : number ∈ g.fs.gpioDirs ∨ number ∈ g.fs.validGpios) :
    (g.alloc_pin number INPUT callback edge active_low).result = .error .nameError ∧
    (g.alloc_pin number INPUT callback edge active_low).gpio.allocated_pins
      = g.allocated_pins := by
  have hv : g.check_pin_validity number = .ok () := by
    unfold Gpio.check_pin_validity
    simp [h1, h2]
  have hdir : ¬ (INPUT ∉ DIRECTIONS) := by simp [DIRECTIONS]
  have hcb : ¬ ((callback.isSome && !edgeInEdges edge) = true) := by
    cases hc : callback.isSome
    · simp
    · simp [h3 hc]
  have hnone : callback.isSome = true → edge ≠ none := by
    intro hc he
    have hE := h3 hc
    rw [he] at hE
    simp [edgeInEdges] at hE
  unfold Gpio.alloc_pin
  simp only [hv]
  rw [if_neg hdir, if_neg hcb]
  by_cases hexp : g.check_pin_already_exported number = true
  · rw [if_pos hexp]
    have hmem : number ∈ g.fs.gpioDirs := by
      simpa [Gpio.check_pin_already_exported] using hexp
    exact alloc_pin_cont_input_name_error g number callback edge active_low g.fs []
      hmem hnone h4
  · rw [if_neg hexp]
    have hnmem : number ∉ g.fs.gpioDirs := by
      simpa [Gpio.check_pin_already_exported] using hexp
    have hvalid : number ∈ g.fs.validGpios := by tauto
    have hew : g.fs.exportWrite number
        = .ok {g.fs with gpioDirs := g.fs.gpioDirs ++ [number]} := by
      unfold Sysfs.exportWrite
      rw [if_pos hvalid]
    rw [hew]
    exact alloc_pin_cont_input_name_error g number callback edge active_low _ _
      (by simp) hnone h4


/-! Concrete states used by witnesses and counterexamples. -/

/-- Sysfs state where line 1 is known to the kernel and already exported,
with value files reading "0". -/
def fs0 : Sysfs := ⟨[1], [1], fun _ => "0"⟩

/-- Sysfs state where line 1 is known to the kernel but not exported. -/
def fsUnexported : Sysfs := ⟨[1], [], fun _ => "0"⟩

/-- Registry with pin 1 available, nothing allocated, line 1 not exported. -/
def g0 : Gpio := ⟨fsUnexported, [1], [], []⟩

/-- Registry with pin 1 available, nothing allocated, line 1 exported. -/
def gExported : Gpio := ⟨fs0, [1], [], []⟩

/-- Registry with an empty available set. -/
def gEmpty : Gpio := ⟨fs0, [], [], []⟩

/-- An input pin on line 1 whose value file reads "1". -/
def pinIn1 : Pin := ⟨1, INPUT, none, none, 0, ⟨"1", 0⟩⟩

/-- Registry with pin 1 allocated as an input and registered. -/
def gIn : Gpio := ⟨fs0, [1], [(1, pinIn1)], [1]⟩

/-- The pin value Pin.init constructs for line 1 as INPUT with no callback,
no edge and active_low 0, over fs0. -/
def pin0 : Pin := ⟨1, INPUT, none, none, 0, ⟨"0", 0⟩⟩

/-- A successful check_pin_validity means the number is available and not
yet allocated. -/
theorem check_pin_validity_ok (g : Gpio) (number : Nat)
    (h : g.check_pin_validity number = .ok ()) :
    number ∈ g.available_pins ∧ (dictGet g.allocated_pins number).isSome = false := by
  unfold Gpio.check_pin_validity at h
  split at h
  · exact Except.noConfusion h
  · split at h
    · exact Except.noConfusion h
    · constructor
      · exact not_not.mp ‹¬ number ∉ g.available_pins›
      · simpa using ‹¬ (dictGet g.allocated_pins number).isSome = true›

/-- A successful alloc_pin passed the validity check. -/
theorem alloc_pin_ok_check (g : Gpio) (number : Nat) (direction : String)
    (callback : Option Nat) (edge : Option String) (active_low : Int) (p : Pin)
    (h : (g.alloc_pin number direction callback edge active_low).result = .ok p) :
    g.check_pin_validity number = .ok () := by
  unfold Gpio.alloc_pin at h
  rcases hv : g.check_pin_validity number with e | u
  · rw [hv] at h
    exact Except.noConfusion h
  · cases u
    rfl

/-- Claim C10: whenever alloc_pin fails for any reason, validation failure,
export write failure, Pin construction failure, or event-loop registration
failure, the allocated-pins mapping is exactly as it was before the call:
insertion into the mapping is the final step of alloc_pin, so no failing
call leaves a partial entry. -/
theorem alloc_pin_failure_leaves_map (g : Gpio) (number : Nat)
    (direction : String) (callback : Option Nat) (edge : Option String)
    (active_low : Int) (err : Err)
    (h : (g.alloc_pin number direction callback edge active_low).result = .error err) :
    (g.alloc_pin number direction callback edge active_low).gpio.allocated_pins
      = g.allocated_pins :=
  alloc_pin_error_unchanged g number direction callback edge active_low err h

/-- Witness for C10 at a concrete failing call: pin 1 is not in the empty
available set, so alloc_pin fails and the mapping is unchanged. -/
theorem alloc_pin_failure_leaves_map_witness :
    (gEmpty.alloc_pin 1 OUTPUT none none 0).gpio.allocated_pins
      = gEmpty.allocated_pins :=
  alloc_pin_failure_leaves_map gEmpty 1 OUTPUT none none 0 .invalidPin rfl

/-- Claim C5: a number outside the available set fails with InvalidPinError;
a number in the available set that is already a key of the allocated-pins
mapping fails with PinAlreadyAllocatedError; in particular a second
allocation of a number whose first allocation succeeded fails with
PinAlreadyAllocatedError. -/
theorem alloc_pin_validity_errors (g : Gpio) (number : Nat) (direction : String)
    (callback : Option Nat) (edge : Option String) (active_low : Int) :
    (number ∉ g.available_pins →
      (g.alloc_pin number direction callback edge active_low).result
        = .error .invalidPin) ∧
    (number ∈ g.available_pins → (dictGet g.allocated_pins number).isSome = true →
      (g.alloc_pin number direction callback edge active_low).result
        = .error .pinAlreadyAllocated) ∧
    (∀ p, (g.alloc_pin number direction callback edge active_low).result = .ok p →
      ((g.alloc_pin number direction callback edge active_low).gpio.alloc_pin
          number direction callback edge active_low).result
        = .error .pinAlreadyAllocated) := by
  have key : ∀ g1 : Gpio, number ∈ g1.available_pins →
      (dictGet g1.allocated_pins number).isSome = true →
      (g1.alloc_pin number direction callback edge active_low).result
        = .error .pinAlreadyAllocated := by
    intro g1 ha hs
    have hv : g1.check_pin_validity number = .error .pinAlreadyAllocated := by
      unfold Gpio.check_pin_validity
      simp [ha, hs]
    unfold Gpio.alloc_pin
    simp only [hv]
  refine ⟨?_, key g, ?_⟩
  · intro h
    have hv : g.check_pin_validity number = .error .invalidPin := by
      unfold Gpio.check_pin_validity
      simp [h]
    unfold Gpio.alloc_pin
    simp only [hv]
  · intro p hok
    have hmem : number ∈ g.available_pins :=
      (check_pin_validity_ok g number
        (alloc_pin_ok_check g number direction callback edge active_low p hok)).1
    rcases alloc_pin_shape g number direction callback edge active_low with
      ⟨p1, hok1, hmap⟩ | ⟨⟨e, herr⟩, -⟩
    · refine key _ ?_ ?_
      · rw [alloc_pin_available_eq]
        exact hmem
      · rw [hmap, dictGet_insert_self]
        rfl
    · rw [herr] at hok
      exact Except.noConfusion hok

/-- Witness for C5: with an empty available set allocation fails with
InvalidPinError; allocating an already-allocated number fails with
PinAlreadyAllocatedError; a successful allocation followed by a second
allocation of the same number fails with PinAlreadyAllocatedError. -/
theorem alloc_pin_validity_errors_witness :
    (gEmpty.alloc_pin 1 OUTPUT none none 0).result = .error .invalidPin ∧
    (gIn.alloc_pin 1 OUTPUT none none 0).result = .error .pinAlreadyAllocated ∧
    ((gExported.alloc_pin 1 OUTPUT none none 0).gpio.alloc_pin 1 OUTPUT
        none none 0).result = .error .pinAlreadyAllocated :=
  ⟨(alloc_pin_validity_errors gEmpty 1 OUTPUT none none 0).1 (by decide),
   (alloc_pin_validity_errors gIn 1 OUTPUT none none 0).2.1 (by decide) rfl,
   (alloc_pin_validity_errors gExported 1 OUTPUT none none 0).2.2
     ⟨1, OUTPUT, none, none, 0, ⟨"0", 0⟩⟩ rfl⟩

/-- Counterexample to claim C2 as stated: with pin 1 available and not yet
exported, alloc_pin of pin 1 as OUTPUT with active_low 5 fails with
InvalidActiveLowError, yet the export write and the direction write had
already happened before the failure. -/
theorem alloc_pin_activeLow_after_writes_cex :
    (g0.alloc_pin 1 OUTPUT none none 5).result = .error .invalidActiveLow ∧
    Event.exportWrite 1 ∈ (g0.alloc_pin 1 OUTPUT none none 5).trace ∧
    Event.directionWrite 1 OUTPUT ∈ (g0.alloc_pin 1 OUTPUT none none 5).trace :=
  ⟨rfl, by decide, by decide⟩

/-- Claim C2 amended: the four validation failures raised directly by
alloc_pin, InvalidPinError, PinAlreadyAllocatedError, InvalidDirectionError
and InvalidEdgeError, happen before any side effect: the trace is empty and
the state unchanged.  InvalidActiveLowError, raised inside Pin construction
after the export and direction writes, still leaves the allocated-pins
mapping unchanged, but not the sysfs state. -/
theorem alloc_pin_validation_order (g : Gpio) (number : Nat) (direction : String)
    (callback : Option Nat) (edge : Option String) (active_low : Int) :
    (∀ err, (g.alloc_pin number direction callback edge active_low).result
        = .error err →
      (err = .invalidPin ∨ err = .pinAlreadyAllocated ∨ err = .invalidDirection ∨
        err = .invalidEdge) →
      (g.alloc_pin number direction callback edge active_low).trace = [] ∧
      (g.alloc_pin number direction callback edge active_low).gpio = g) ∧
    ((g.alloc_pin number direction callback edge active_low).result
        = .error .invalidActiveLow →
      (g.alloc_pin number direction callback edge active_low).gpio.allocated_pins
        = g.allocated_pins) := by
  constructor
  · intro err h hmem
    rcases alloc_pin_early_shape g number direction callback edge active_low with
      hok | hlate
    · exact hok
    · rcases hlate err h with h1 | h1 | h1 <;>
        (subst h1; rcases hmem with h2 | h2 | h2 | h2 <;> exact Err.noConfusion h2)
  · intro h
    exact alloc_pin_error_unchanged g number direction callback edge active_low _ h

/-- Witness for C2 amended: with an empty available set the failure is
InvalidPinError and nothing at all happened. -/
theorem alloc_pin_validation_order_witness :
    (gEmpty.alloc_pin 1 OUTPUT none none 0).trace = [] ∧
    (gEmpty.alloc_pin 1 OUTPUT none none 0).gpio = gEmpty :=
  (alloc_pin_validation_order gEmpty 1 OUTPUT none none 0).1 .invalidPin rfl
    (Or.inl rfl)

/-- Claim C9: for a valid alloc_pin call, when the per-pin control directory
already exists no export write is issued and the skip is not an error; the
export write is issued exactly when the control directory is absent. -/
theorem alloc_pin_idempotent_export (g : Gpio) (number : Nat) (direction : String)
    (callback : Option Nat) (edge : Option String) (active_low : Int)
    (h1 : number ∈ g.available_pins)
    (h2 : dictGet g.allocated_pins number = none)
    (h3 : direction ∈ DIRECTIONS)
    (h4 : callback.isSome = true → edgeInEdges edge = true) :
    (number ∈ g.fs.gpioDirs →
      Event.exportWrite number
          ∉ (g.alloc_pin number direction callback edge active_low).trace ∧
      (g.alloc_pin number direction callback edge active_low).result
          ≠ .error .ioError) ∧
    (number ∉ g.fs.gpioDirs →
      Event.exportWrite number
          ∈ (g.alloc_pin number direction callback edge active_low).trace) := by
  have hv : g.check_pin_validity number = .ok () := by
    unfold Gpio.check_pin_validity
    simp [h1, h2]
  have hdir : ¬ (direction ∉ DIRECTIONS) := not_not_intro h3
  have hcb : ¬ ((callback.isSome && !edgeInEdges edge) = true) := by
    cases hc : callback.isSome
    · simp
    · simp [h4 hc]
  unfold Gpio.alloc_pin
  simp only [hv]
  rw [if_neg hdir, if_neg hcb]
  constructor
  · intro hmem
    have hexp : g.check_pin_already_exported number = true := by
      simp [Gpio.check_pin_already_exported, hmem]
    rw [if_pos hexp]
    exact ⟨alloc_pin_cont_no_export g number direction callback edge active_low
        g.fs [] number (by simp),
      alloc_pin_cont_not_ioError g number direction callback edge active_low
        g.fs [] hmem⟩
  · intro hnm
    have hexp : ¬ (g.check_pin_already_exported number = true) := by
      simp [Gpio.check_pin_already_exported, hnm]
    rw [if_neg hexp]
    rcases hew : g.fs.exportWrite number with e1 | fs1
    · exact List.mem_singleton.mpr rfl
    · obtain ⟨tr2, htr⟩ := alloc_pin_cont_trace_append g number direction callback
        edge active_low fs1 [Event.exportWrite number]
      rw [htr]
      exact List.mem_append_left _ (List.mem_singleton.mpr rfl)

/-- Witness for C9: for the already-exported registry no export write is in
the trace; for the unexported registry the export write is in the trace. -/
theorem alloc_pin_idempotent_export_witness :
    Event.exportWrite 1 ∉ (gExported.alloc_pin 1 OUTPUT none none 0).trace ∧
    Event.exportWrite 1 ∈ (g0.alloc_pin 1 OUTPUT none none 0).trace :=
  ⟨((alloc_pin_idempotent_export gExported 1 OUTPUT none none 0 (by decide) rfl
      (by decide) (by simp)).1 (by decide)).1,
   (alloc_pin_idempotent_export g0 1 OUTPUT none none 0 (by decide) rfl
      (by decide) (by simp)).2 (by decide)⟩


/-- Witness for C1: the concrete valid input allocation raises NameError and
leaves the mapping unchanged. -/
theorem alloc_pin_input_nameError_witness :
    (g0.alloc_pin 1 INPUT none none 0).result = .error .nameError ∧
    (g0.alloc_pin 1 INPUT none none 0).gpio.allocated_pins = g0.allocated_pins :=
  alloc_pin_input_nameError g0 1 none none 0 (by decide) rfl (by simp)
    (Or.inl rfl) (Or.inr (by decide))

/-- A successful alloc_pin_cont returns a pin built by Pin.init, so the pin
satisfies the edge invariant. -/
theorem alloc_pin_cont_ok_invariant (g : Gpio) (number : Nat) (direction : String)
    (callback : Option Nat) (edge : Option String) (active_low : Int)
    (fs1 : Sysfs) (ev1 : List Event) (p : Pin)
    (h : (g.alloc_pin_cont number direction callback edge active_low fs1 ev1).result
      = .ok p) :
    pinInvariant p := by
  rcases pin_init_pair_shape fs1 number direction callback edge active_low with
    ⟨⟨tr, heq⟩, -⟩ | ⟨⟨tr, heq⟩, -, -⟩ | ⟨tr, heq⟩ | ⟨p1, tr, heq⟩
  · unfold Gpio.alloc_pin_cont at h
    rw [heq] at h
    exact Except.noConfusion h
  · unfold Gpio.alloc_pin_cont at h
    rw [heq] at h
    exact Except.noConfusion h
  · unfold Gpio.alloc_pin_cont at h
    rw [heq] at h
    exact Except.noConfusion h
  · unfold Gpio.alloc_pin_cont at h
    simp only [heq] at h
    by_cases hd : direction = INPUT
    · rw [if_pos hd] at h
      exact Except.noConfusion h
    · rw [if_neg hd] at h
      have hp : p1 = p := by simpa using h
      subst hp
      exact pin_init_ok_invariant fs1 number direction callback edge active_low
        p1 tr heq

/-- Every pin a successful alloc_pin returns satisfies the edge invariant. -/
theorem alloc_pin_ok_invariant (g : Gpio) (number : Nat) (direction : String)
    (callback : Option Nat) (edge : Option String) (active_low : Int) (p : Pin)
    (h : (g.alloc_pin number direction callback edge active_low).result = .ok p) :
    pinInvariant p := by
  unfold Gpio.alloc_pin at h
  rcases hv : g.check_pin_validity number with e | u
  · rw [hv] at h
    exact Except.noConfusion h
  · simp only [hv] at h
    by_cases hd : direction ∉ DIRECTIONS
    · rw [if_pos hd] at h
      exact Except.noConfusion h
    · rw [if_neg hd] at h
      by_cases hce : (callback.isSome && !edgeInEdges edge) = true
      · rw [if_pos hce] at h
        exact Except.noConfusion h
      · rw [if_neg hce] at h
        by_cases hexp : g.check_pin_already_exported number = true
        · rw [if_pos hexp] at h
          exact alloc_pin_cont_ok_invariant g number direction callback edge
            active_low g.fs [] p h
        · rw [if_neg hexp] at h
          rcases hew : g.fs.exportWrite number with e1 | fs1
          · rw [hew] at h
            exact Except.noConfusion h
          · rw [hew] at h
            exact alloc_pin_cont_ok_invariant g number direction callback edge
              active_low fs1 [Event.exportWrite number] p h

/-- Counterexample to claim C6 as stated: the pin built by Pin.init for a
valid input allocation with neither callback nor edge satisfies the edge
invariant, but assigning a callback through the callback property setter
yields an INPUT pin with a callback and no edge: the setter does not
preserve the invariant. -/
theorem callback_setter_invariant_cex :
    (Pin.init fs0 1 INPUT none none 0).1 = .ok pin0 ∧
    pinInvariant pin0 ∧
    ¬ pinInvariant (pin0.set_callback (some 0)) :=
  ⟨rfl, rfl, fun h => Bool.noConfusion h⟩

/-- Claim C6 amended: alloc_pin fails with InvalidEdgeError whenever a
callback is supplied without an edge in EDGES, every pin Pin.init constructs
satisfies the invariant, and every pin a successful alloc_pin returns
satisfies the invariant; the callback property setter, however, performs no
edge check and can break the invariant on an INPUT pin allocated without an
edge. -/
theorem alloc_pin_edge_invariant (g : Gpio) (number : Nat) (direction : String)
    (callback : Option Nat) (edge : Option String) (active_low : Int) :
    (number ∈ g.available_pins → dictGet g.allocated_pins number = none →
      direction ∈ DIRECTIONS → callback.isSome = true → edgeInEdges edge = false →
      (g.alloc_pin number direction callback edge active_low).result
        = .error .invalidEdge) ∧
    (∀ fs p tr, Pin.init fs number direction callback edge active_low = (.ok p, tr) →
      pinInvariant p) ∧
    (∀ p, (g.alloc_pin number direction callback edge active_low).result = .ok p →
      pinInvariant p) := by
  refine ⟨?_, ?_, ?_⟩
  · intro h1 h2 h3 hcb hE
    have hv : g.check_pin_validity number = .ok () := by
      unfold Gpio.check_pin_validity
      simp [h1, h2]
    have hdir : ¬ (direction ∉ DIRECTIONS) := not_not_intro h3
    have hce : (callback.isSome && !edgeInEdges edge) = true := by
      simp [hcb, hE]
    unfold Gpio.alloc_pin
    simp only [hv]
    rw [if_neg hdir, if_pos hce]
  · intro fs p tr h
    exact pin_init_ok_invariant fs number direction callback edge active_low p tr h
  · intro p h
    exact alloc_pin_ok_invariant g number direction callback edge active_low p h

/-- Witness for C6 amended: a callback without an edge fails with
InvalidEdgeError on a concrete registry, the concrete Pin.init result
satisfies the invariant, and a concrete successful allocation returns a pin
satisfying the invariant. -/
theorem alloc_pin_edge_invariant_witness :
    (gExported.alloc_pin 1 INPUT (some 0) none 0).result = .error .invalidEdge ∧
    pinInvariant pin0 ∧
    pinInvariant ⟨1, OUTPUT, none, none, 0, ⟨"0", 0⟩⟩ :=
  ⟨(alloc_pin_edge_invariant gExported 1 INPUT (some 0) none 0).1 (by decide) rfl
      (by decide) rfl rfl,
   (alloc_pin_edge_invariant gExported 1 INPUT none none 0).2.1 fs0 pin0
      [Event.openValue 1, Event.directionWrite 1 INPUT] rfl,
   (alloc_pin_edge_invariant gExported 1 OUTPUT none none 0).2.2
      ⟨1, OUTPUT, none, none, 0, ⟨"0", 0⟩⟩ rfl⟩

/-- Counterexample to claim C3 as stated: on a registry holding input pin 1,
dealloc_pin issues the unexport write and the event-loop deregistration and
nothing else; no closing of the value handle is performed, in particular
none between the unexport write and the deregistration. -/
theorem dealloc_pin_no_close_cex :
    (gIn.dealloc_pin 1).result = .ok () ∧
    (gIn.dealloc_pin 1).trace = [Event.unexportWrite 1, Event.pollUnregister 1] ∧
    Event.closeHandle 1 ∉ (gIn.dealloc_pin 1).trace :=
  ⟨rfl, rfl, by decide⟩

/-- Claim C3 amended: dealloc_pin fails with PinNotAllocatedError when the
number is not allocated, and otherwise performs, in order, the unexport
write, the event-loop deregistration when the pin is an input, and the
removal of the mapping entry; the value handle is not explicitly closed by
dealloc_pin. -/
theorem dealloc_pin_spec (g : Gpio) (number : Nat) :
    (dictGet g.allocated_pins number = none →
      (g.dealloc_pin number).result = .error .pinNotAllocated ∧
      (g.dealloc_pin number).gpio = g ∧ (g.dealloc_pin number).trace = []) ∧
    (∀ pin, dictGet g.allocated_pins number = some pin →
      (g.dealloc_pin number).result = .ok () ∧
      (g.dealloc_pin number).trace
        = Event.unexportWrite number ::
            (if pin.direction = INPUT then [Event.pollUnregister pin.number] else []) ∧
      (g.dealloc_pin number).gpio.allocated_pins
        = dictErase g.allocated_pins number ∧
      (g.dealloc_pin number).gpio.registered
        = (if pin.direction = INPUT then g.registered.erase pin.number
           else g.registered) ∧
      (∀ m, Event.closeHandle m ∉ (g.dealloc_pin number).trace)) := by
  constructor
  · intro h
    unfold Gpio.dealloc_pin
    rw [h]
    exact ⟨rfl, rfl, rfl⟩
  · intro pin hpin
    unfold Gpio.dealloc_pin
    simp only [hpin]
    by_cases hd : pin.direction = INPUT
    · rw [if_pos hd]
      refine ⟨rfl, by simp [hd], rfl,
        by simp [hd, Gpio.poll_queue_unregister_pin], ?_⟩
      intro m
      simp
    · rw [if_neg hd]
      refine ⟨rfl, by simp [hd], rfl, by simp [hd], ?_⟩
      intro m
      simp

/-- Witness for C3 amended: deallocating an unallocated number fails, and a
concrete input-pin deallocation unexports, deregisters and removes the
entry. -/
theorem dealloc_pin_spec_witness :
    (gExported.dealloc_pin 1).result = .error .pinNotAllocated ∧
    (gIn.dealloc_pin 1).result = .ok () ∧
    (gIn.dealloc_pin 1).gpio.allocated_pins = dictErase gIn.allocated_pins 1 :=
  ⟨((dealloc_pin_spec gExported 1).1 rfl).1,
   ((dealloc_pin_spec gIn 1).2 pinIn1 rfl).1,
   ((dealloc_pin_spec gIn 1).2 pinIn1 rfl).2.2.1⟩

/-- Claim C4: get_pin_state fails with PinNotAllocatedError when the number
is not allocated; otherwise, when the direction of the pin is INPUT, the pin
is deregistered from the event loop before the synchronous read and never
re-registered, and the call returns true exactly when the read value is
greater than 0, false otherwise. -/
theorem get_pin_state_spec (g : Gpio) (number : Nat) :
    (dictGet g.allocated_pins number = none →
      (g.get_pin_state number).result = .error .pinNotAllocated ∧
      (g.get_pin_state number).gpio = g) ∧
    (∀ pin, dictGet g.allocated_pins number = some pin → pin.direction = INPUT →
      (g.get_pin_state number).trace
        = [Event.pollUnregister pin.number, Event.valueRead number] ∧
      (g.get_pin_state number).gpio.registered = g.registered.erase pin.number ∧
      (∀ m, Event.pollRegister m ∉ (g.get_pin_state number).trace) ∧
      (∀ v pin1, pin.read = (.ok v, pin1) →
        (g.get_pin_state number).result = .ok (decide (0 < v)))) := by
  constructor
  · intro h
    unfold Gpio.get_pin_state
    rw [h]
    exact ⟨rfl, rfl⟩
  · intro pin hpin hdir
    unfold Gpio.get_pin_state
    simp only [hpin]
    rw [if_pos hdir]
    unfold Gpio.get_pin_state_read
    rcases hr : pin.read with ⟨res, pin1⟩
    rcases res with e | v
    · refine ⟨by simp, by simp [Gpio.poll_queue_unregister_pin], ?_, ?_⟩
      · intro m
        simp
      · intro v pin2 hok
        injection hok with hok1 hok2
        exact Except.noConfusion hok1
    · refine ⟨by simp, by simp [Gpio.poll_queue_unregister_pin], ?_, ?_⟩
      · intro m
        simp
      · intro v1 pin2 hok
        injection hok with hok1 hok2
        injection hok1 with hok1
        subst hok1
        have hb : (if v ≤ 0 then false else true) = decide (0 < v) := by
          rcases lt_or_le 0 v with hlt | hle
          · simp [hlt, not_le.mpr hlt]
          · simp [hle, not_lt.mpr hle]
        simp [hb]

/-- Witness for C4: on the concrete input registry, get_pin_state of pin 1
deregisters before the read, never re-registers, and returns true for the
value file reading "1"; on an empty registry it fails. -/
theorem get_pin_state_spec_witness :
    (gEmpty.get_pin_state 1).result = .error .pinNotAllocated ∧
    (gIn.get_pin_state 1).trace = [Event.pollUnregister 1, Event.valueRead 1] ∧
    (gIn.get_pin_state 1).gpio.registered = gIn.registered.erase 1 ∧
    (gIn.get_pin_state 1).result = .ok true :=
  ⟨((get_pin_state_spec gEmpty 1).1 rfl).1,
   ((get_pin_state_spec gIn 1).2 pinIn1 rfl rfl).1,
   ((get_pin_state_spec gIn 1).2 pinIn1 rfl rfl).2.1,
   ((get_pin_state_spec gIn 1).2 pinIn1 rfl rfl).2.2.2 1 pinIn1 rfl⟩

/-- Counterexample to claim C7 as stated: get_pin on an unallocated number
fails with the raw dictionary KeyError, not with PinNotAllocatedError: the
method does a bare lookup with no allocation check. -/
theorem get_pin_keyError_cex :
    (gEmpty.get_pin 5).result = .error .keyError ∧
    (gEmpty.get_pin 5).result ≠ .error .pinNotAllocated :=
  ⟨rfl, fun h => Err.noConfusion (Except.error.inj h)⟩

/-- Claim C7 amended: set_pin and reset_pin fail with PinNotAllocatedError
when the number is absent and otherwise delegate to the set and reset
methods of the allocated pin; get_pin performs a bare mapping lookup,
failing with KeyError when absent, and returns the Pin otherwise. -/
theorem lookup_delegate_spec (g : Gpio) (number : Nat) :
    (dictGet g.allocated_pins number = none →
      (g.get_pin number).result = .error .keyError ∧
      (g.set_pin number).result = .error .pinNotAllocated ∧
      (g.reset_pin number).result = .error .pinNotAllocated) ∧
    (∀ pin, dictGet g.allocated_pins number = some pin →
      (g.get_pin number).result = .ok pin ∧ (g.get_pin number).gpio = g ∧
      (g.set_pin number).result = .ok () ∧
      (g.set_pin number).gpio.allocated_pins
        = dictInsert g.allocated_pins number pin.set ∧
      (g.reset_pin number).result = .ok () ∧
      (g.reset_pin number).gpio.allocated_pins
        = dictInsert g.allocated_pins number pin.reset) := by
  constructor
  · intro h
    unfold Gpio.get_pin Gpio.set_pin Gpio.reset_pin
    rw [h]
    exact ⟨rfl, rfl, rfl⟩
  · intro pin hpin
    unfold Gpio.get_pin Gpio.set_pin Gpio.reset_pin
    rw [hpin]
    exact ⟨rfl, rfl, rfl, rfl, rfl, rfl⟩

/-- Witness for C7 amended: concrete absent and present cases. -/
theorem lookup_delegate_spec_witness :
    (gEmpty.set_pin 1).result = .error .pinNotAllocated ∧
    (gIn.get_pin 1).result = .ok pinIn1 ∧
    (gIn.set_pin 1).gpio.allocated_pins = dictInsert gIn.allocated_pins 1 pinIn1.set :=
  ⟨((lookup_delegate_spec gEmpty 1).1 rfl).2.1,
   ((lookup_delegate_spec gIn 1).2 pinIn1 rfl).1,
   ((lookup_delegate_spec gIn 1).2 pinIn1 rfl).2.2.2.1⟩

/-- Claim C8: against the simulated value store, for a pin whose handle sits
at position 0 on a one-character value, set writes the string HIGH = "1"
through the persistent handle and read then returns 1; reset writes the
string LOW = "0" and read then returns 0; each operation leaves the handle
repositioned at 0. -/
theorem pin_set_reset_read (p : Pin) (hpos : p.fd.pos = 0)
    (hc : p.fd.content = SYSFS_GPIO_VALUE_LOW ∨ p.fd.content = SYSFS_GPIO_VALUE_HIGH) :
    p.set.fd = ⟨SYSFS_GPIO_VALUE_HIGH, 0⟩ ∧
    p.set.read.1 = .ok 1 ∧
    p.set.read.2.fd = ⟨SYSFS_GPIO_VALUE_HIGH, 0⟩ ∧
    p.reset.fd = ⟨SYSFS_GPIO_VALUE_LOW, 0⟩ ∧
    p.reset.read.1 = .ok 0 ∧
    p.reset.read.2.fd = ⟨SYSFS_GPIO_VALUE_LOW, 0⟩ := by
  obtain ⟨n, d, cb, e, al, fd⟩ := p
  obtain ⟨content, pos⟩ := fd
  dsimp only at hpos hc
  subst hpos
  rcases hc with h | h <;> subst h <;>
    exact ⟨rfl, rfl, rfl, rfl, rfl, rfl⟩

/-- Witness for C8 at the concrete pin with value file "0". -/
theorem pin_set_reset_read_witness :
    pin0.set.fd = ⟨SYSFS_GPIO_VALUE_HIGH, 0⟩ ∧
    pin0.set.read.1 = .ok 1 ∧
    pin0.reset.read.1 = .ok 0 := by
  obtain ⟨h1, h2, -, -, h5, -⟩ := pin_set_reset_read pin0 rfl (Or.inl rfl)
  exact ⟨h1, h2, h5⟩

end ChipIoboard
